import Mathlib

/-
  Verification development for the CICD_PowerBI deployment scripts
  (src/scripts/utils.py, src/scripts/deploy.py).

  The Python code is shallowly embedded: pure computations become Lean
  functions, filesystem walks become lists of (relative path, byte list)
  pairs, HTTP responses become explicit records, and raised exceptions
  become `Except` errors.
-/

namespace CICD

/-! ## String helpers mirroring Python primitives -/

/-- Python `str.replace(pat, rep)` on character lists: replaces every
non-overlapping occurrence of `pat`, scanning left to right.  Fueled so the
definition is structurally recursive and kernel-reducible. -/
def replaceAllFuel (pat rep : List Char) : Nat → List Char → List Char
  | _, [] => []
  | 0, l => l
  | fuel + 1, c :: rest =>
    if pat.isPrefixOf (c :: rest) && !pat.isEmpty then
      rep ++ replaceAllFuel pat rep fuel (List.drop (pat.length - 1) rest)
    else
      c :: replaceAllFuel pat rep fuel rest

/-- Python `s.replace(pat, rep)`. -/
def pyReplace (s pat rep : String) : String :=
  ⟨replaceAllFuel pat.toList rep.toList s.toList.length s.toList⟩

/-- Python `s.lower()` (ASCII case folding, which is all the code relies on). -/
def pyLower (s : String) : String :=
  ⟨s.toList.map Char.toLower⟩

/-- Python `s.split(sep)` for a single-character separator, on char lists. -/
def splitOnChar (sep : Char) : List Char → List (List Char)
  | [] => [[]]
  | c :: rest =>
    if c = sep then
      [] :: splitOnChar sep rest
    else
      match splitOnChar sep rest with
      | [] => [[c]]
      | seg :: segs => (c :: seg) :: segs

/-- Characters of the base name before the first dot
(Python `name.split(".", 1)[0]`). -/
def takeUntilDot : List Char → List Char
  | [] => []
  | c :: rest => if c = '.' then [] else c :: takeUntilDot rest

/-- `os.path.relpath(...).replace("\\", "/")`: forward-slash normalization. -/
def pathNorm (s : String) : String :=
  pyReplace s "\\" "/"

/-! ## Base64 (mirrors Python `base64.b64encode` followed by `.decode("ascii")`) -/

/-- The base64 alphabet. -/
def b64Alphabet : List Char :=
  "ABCDEFGHIJKLMNOPQRSTUVWXYZabcdefghijklmnopqrstuvwxyz0123456789+/".toList

/-- The base64 digit for a 6-bit value. -/
def b64Char (n : Nat) : Char :=
  b64Alphabet.getD n 'A'

/-- Standard base64 encoding of a byte list, with `=` padding. -/
def base64Encode : List Nat → List Char
  | [] => []
  | [b1] =>
    [b64Char (b1 / 4), b64Char (b1 % 4 * 16), '=', '=']
  | [b1, b2] =>
    [b64Char (b1 / 4), b64Char (b1 % 4 * 16 + b2 / 16), b64Char (b2 % 16 * 4), '=']
  | b1 :: b2 :: b3 :: rest =>
    b64Char (b1 / 4) :: b64Char (b1 % 4 * 16 + b2 / 16) ::
      b64Char (b2 % 16 * 4 + b3 / 64) :: b64Char (b3 % 64) :: base64Encode rest

/-! ## Artifact packaging (`utils.build_definition_parts_from_folder`)

A folder's file walk is embedded as a list of pairs: the path of the file
relative to the folder root (as `os.walk`/`os.path.relpath` would yield it)
and the file's bytes. -/

/-- One entry of an item definition's `parts` list. -/
structure Part where
  path : String
  payload : String
  payloadType : String
deriving DecidableEq, Repr

/-- The loop body of `build_definition_parts_from_folder`: one file becomes
one part, with the forward-slash relative path and base64 payload. -/
def mkPlainPart (f : String × List Nat) : Part :=
  { path := pathNorm f.1
    payload := ⟨base64Encode f.2⟩
    payloadType := "InlineBase64" }

/-- `utils.build_definition_parts_from_folder`: walks the folder, builds one
part per file, and raises `ValueError` when the folder holds no files. -/
def build_definition_parts_from_folder (folder : String)
    (files : List (String × List Nat)) : Except String (List Part) :=
  let parts := files.map mkPlainPart
  if parts.isEmpty then
    .error ("No files found in PBIP folder: " ++ folder)
  else
    .ok parts

/-! ## The report definition document (`definition.pbir`)

The code parses `definition.pbir` with `json.loads`, inspects its
`datasetReference` field, and re-serializes with `json.dumps`.  The document
is embedded as a record with the `datasetReference` fragment made explicit;
`pbirEncode`/`pbirDecode` are the serializer/parser pair standing in for the
JSON round trip. -/

/-- The discriminated `datasetReference` value of a report definition. -/
inductive DatasetRef where
  | byPath (path : String)
  | byConnection (connectionString : String)
deriving DecidableEq, Repr

/-- The report definition document: the `datasetReference` fragment plus the
rest of the document (abstracted into `version`). -/
structure Pbir where
  version : String
  datasetReference : Option DatasetRef
deriving DecidableEq, Repr

/-- Length-prefixed string serialization. -/
def encStr (s : String) : List Nat :=
  s.toList.length :: s.toList.map Char.toNat

/-- Serialization of the `datasetReference` fragment. -/
def encRef : Option DatasetRef → List Nat
  | none => [0]
  | some (.byPath p) => 1 :: encStr p
  | some (.byConnection c) => 2 :: encStr c

/-- Serializer for report definition documents (stands in for `json.dumps`). -/
def pbirEncode (d : Pbir) : List Nat :=
  encStr d.version ++ encRef d.datasetReference

/-- Length-prefixed string parsing; returns the string and the leftover bytes. -/
def decStr : List Nat → Option (String × List Nat)
  | [] => none
  | n :: rest =>
    if n ≤ rest.length then
      some (⟨(rest.take n).map Char.ofNat⟩, rest.drop n)
    else
      none

/-- Parser for report definition documents (stands in for `json.loads`). -/
def pbirDecode (bs : List Nat) : Option Pbir :=
  match decStr bs with
  | none => none
  | some (v, rest) =>
    match rest with
    | 0 :: tail => if tail.isEmpty then some ⟨v, none⟩ else none
    | 1 :: tail =>
      match decStr tail with
      | some (p, []) => some ⟨v, some (.byPath p)⟩
      | _ => none
    | 2 :: tail =>
      match decStr tail with
      | some (c, []) => some ⟨v, some (.byConnection c)⟩
      | _ => none
    | _ => none

/-! ## Long-running operation tracking (`utils.wait_for_long_running_operation`)

Each successful poll of the operation URL yields a status document; the
stream of poll responses is embedded as a list.  Time is discretized: the
loop guard `time.time() - start_time < max_wait_seconds` is modelled with
`elapsed` advancing by `poll_interval` at every sleep.  The result is paired
with the number of polls consumed; `none` means the supplied poll stream was
exhausted before the loop terminated. -/

/-- One poll response body: `status`, `percentComplete`, and the serialized
`error` payload (`operation_status.get("error", operation_status)`). -/
structure OpStatus where
  status : String
  percent : Nat
  errorInfo : String
deriving DecidableEq, Repr

/-- Outcome of tracking a long-running operation. -/
inductive LroResult where
  | success (op : OpStatus)
  | opFailed (msg : String)
  | timeout (maxWait : Nat)
deriving DecidableEq, Repr

/-- `utils.wait_for_long_running_operation`, over a poll-response stream. -/
def wait_for_long_running_operation :
    List OpStatus → Nat → Nat → Nat → Option (LroResult × Nat)
  | [], elapsed, maxWaitSeconds, _ =>
    if elapsed < maxWaitSeconds then none
    else some (.timeout maxWaitSeconds, 0)
  | op :: rest, elapsed, maxWaitSeconds, pollInterval =>
    if elapsed < maxWaitSeconds then
      let st := pyLower op.status
      if st = "succeeded" ∨ st = "completed" then
        some (.success op, 1)
      else if st = "failed" ∨ st = "cancelled" then
        some (.opFailed ("Opération " ++ st ++ ": " ++ op.errorInfo), 1)
      else
        match wait_for_long_running_operation rest (elapsed + pollInterval)
            maxWaitSeconds pollInterval with
        | some (r, n) => some (r, n + 1)
        | none => none
    else
      some (.timeout maxWaitSeconds, 0)

/-! ## Item Publisher create path (`utils.create_or_update_item_from_folder`,
response handling of the creation POST) -/

/-- The creation POST's response: status code, the `id` field of the body
(when the body parses and has one), and the `Location` header. -/
structure CreateResp where
  status : Nat
  bodyId : Option String
  location : Option String
deriving DecidableEq, Repr

/-- What the create branch does with the response. -/
inductive CreateOutcome where
  | created (id : String)
  | tracked (operationUrl : String)
  | failed (msg : String)
deriving DecidableEq, Repr

/-- Response handling of the create branch of
`create_or_update_item_from_folder`: 201 reads the id from the body, 202
tracks the operation behind the `Location` header and raises
`FabricApiError("202 response without Location header")` when the header is
absent, anything else raises the unexpected-status error. -/
def createItemResponseHandling (resp : CreateResp) : CreateOutcome :=
  if resp.status = 201 then
    match resp.bodyId with
    | some i => .created i
    | none => .failed "Failed to parse 201 response"
  else if resp.status = 202 then
    match resp.location with
    | some url => .tracked url
    | none => .failed "202 response without Location header"
  else
    .failed ("Unexpected status code " ++ toString resp.status)

/-! ## Report deployment workaround (`utils.deploy_report_via_fabric_workaround`) -/

/-- A remote workspace item as returned by `list_items_by_type`. -/
structure FabricItem where
  displayName : String
  id : String
deriving DecidableEq, Repr

/-- `path.split("/")[-1].replace(".SemanticModel", "")`: the dataset name
recovered from a `byPath` reference. -/
def datasetNameFromPath (p : String) : String :=
  pyReplace ⟨(splitOnChar '/' p.toList).getLastD []⟩ ".SemanticModel" ""

/-- The dataset-resolution prologue of `deploy_report_via_fabric_workaround`
(lines 399-425): recover the dataset name from the `byPath` reference of the
parsed `definition.pbir` (`none` embeds a missing or unparseable file), look
it up among the workspace's semantic models, and raise
`FabricApiError(f"Dataset \x27{dataset_name}\x27 not found")` when either
step yields nothing.  A `None` dataset name prints as `None` in the message. -/
def resolveDatasetForReport (pbir : Option Pbir) (items : List FabricItem) :
    Except String (String × String) :=
  let dname : Option String :=
    match pbir with
    | some doc =>
      match doc.datasetReference with
      | some (.byPath p) => if p = "" then none else some (datasetNameFromPath p)
      | _ => none
    | none => none
  match dname with
  | some n =>
    match items.find? (fun it => it.displayName == n) with
    | some it => .ok (n, it.id)
    | none => .error ("Dataset \x27" ++ n ++ "\x27 not found")
  | none => .error "Dataset \x27None\x27 not found"

/-- The rewrite applied to the parsed `definition.pbir`: the
`datasetReference` field is replaced by a `byConnection` value carrying the
dataset GUID. -/
def rewritePbirDoc (dataset_id : String) (doc : Pbir) : Pbir :=
  { doc with
    datasetReference := some (.byConnection ("semanticModelId=" ++ dataset_id)) }

/-- The parts-building loop of `deploy_report_via_fabric_workaround`
(lines 429-456): every file becomes a part as in plain packaging, except the
file whose normalized relative path is `definition.pbir`, which is parsed,
rewritten via `rewritePbirDoc`, and re-serialized before encoding. -/
def deployReportBuildParts (dataset_id : String) :
    List (String × List Nat) → Except String (List Part)
  | [] => .ok []
  | f :: rest =>
    let rel := pathNorm f.1
    let part! : Except String Part :=
      if rel = "definition.pbir" then
        match pbirDecode f.2 with
        | some doc =>
          .ok { path := rel
                payload := ⟨base64Encode (pbirEncode (rewritePbirDoc dataset_id doc))⟩
                payloadType := "InlineBase64" }
        | none => .error "Invalid JSON in definition.pbir"
      else
        .ok (mkPlainPart f)
    match part! with
    | .error e => .error e
    | .ok p =>
      match deployReportBuildParts dataset_id rest with
      | .error e => .error e
      | .ok ps => .ok (p :: ps)

/-- Dataset resolution followed by parts building: the prefix of
`deploy_report_via_fabric_workaround` up to (and excluding) the creation
POST.  An error from resolution aborts before any part is built, hence
before any remote item could be created. -/
def deployReportPipeline (pbir : Option Pbir) (items : List FabricItem)
    (files : List (String × List Nat)) : Except String (List Part) :=
  match resolveDatasetForReport pbir items with
  | .error e => .error e
  | .ok (_, did) => deployReportBuildParts did files

/-! ## Rebind (`utils.rebind_report_to_dataset`) -/

/-- An HTTP response as the rebind call sees it. -/
structure HttpResp where
  ok : Bool
  status : Nat
  text : String
deriving DecidableEq, Repr

/-- `utils.rebind_report_to_dataset`: posts the rebind request and, whatever
the response, only prints — a failed rebind is logged as a warning and no
exception is raised.  Returns the (always successful) control-flow outcome
paired with the log lines. -/
def rebind_report_to_dataset (resp : HttpResp) : Except String Unit × List String :=
  if resp.ok then
    (.ok (), ["✅ Rapport lié au dataset avec succès"])
  else
    (.ok (),
      ["⚠️ Échec du rebind: HTTP " ++ toString resp.status,
       resp.text,
       "Le rapport a été créé mais n\x27est pas lié au dataset"])

/-- The tail of `deploy_report_via_fabric_workaround` after the item exists:
rebind, then return the item id. -/
def deployReportFinish (item_id : String) (rebindResp : HttpResp) :
    Except String String :=
  match (rebind_report_to_dataset rebindResp).1 with
  | .ok _ => .ok item_id
  | .error e => .error e

/-! ## Workspace resolution (`deploy.get_workspace_for_artifact`)

A mapping entry is a Python dict that can hold the keys `semanticmodel` and
`report` (each an environment-to-workspace sub-dict), plus environment names
directly as keys (the legacy flat form).  The embedding splits those key
groups into record fields; `none` embeds an absent key.  Environment-to-
workspace dicts are association lists. -/

/-- One entry of the workspace mapping file. -/
structure ArtifactConfig where
  semanticmodel : Option (List (String × String))
  report : Option (List (String × String))
  flat : List (String × String)
deriving DecidableEq, Repr

/-- Python `d.get(k)` on an association list. -/
def assocGet (m : List (String × String)) (k : String) : Option String :=
  (m.find? (fun p => p.1 == k)).map (fun p => p.2)

/-- `artifact_config[type_key]` for `type_key ∈ {semanticmodel, report}`. -/
def ArtifactConfig.typeMap (cfg : ArtifactConfig) (typeKey : String) :
    Option (List (String × String)) :=
  if typeKey = "semanticmodel" then cfg.semanticmodel else cfg.report

/-- Python truthiness of an optional string: `None` and `""` are falsy. -/
def nonEmpty : Option String → Option String
  | some w => if w = "" then none else some w
  | none => none

/-- Lookup of a mapping entry by key. -/
def lookupCfg (mapping : List (String × ArtifactConfig)) (key : String) :
    Option ArtifactConfig :=
  (mapping.find? (fun p => p.1 == key)).map (fun p => p.2)

/-- The per-entry lookup of `get_workspace_for_artifact`: if the type key is
present in the entry, only its sub-map is consulted (the `elif` makes the
legacy flat form unreachable for that entry); the flat form is consulted
only when the type key is absent. -/
def entryLookup (cfg : ArtifactConfig) (typeKey env : String) : Option String :=
  match cfg.typeMap typeKey with
  | some sub => nonEmpty (assocGet sub env)
  | none => nonEmpty (assocGet cfg.flat env)

/-- `deploy.get_workspace_for_artifact`: the exact artifact entry, then the
`default` entry, each consulted through `entryLookup`; raises `ValueError`
when neither yields a non-empty value. -/
def get_workspace_for_artifact (artifact_name item_type environment : String)
    (mapping : List (String × ArtifactConfig)) : Except String String :=
  let typeKey := if item_type = "SemanticModel" then "semanticmodel" else "report"
  let fromArtifact :=
    match lookupCfg mapping artifact_name with
    | some cfg => entryLookup cfg typeKey environment
    | none => none
  match fromArtifact with
  | some w => .ok w
  | none =>
    match lookupCfg mapping "default" with
    | some cfg =>
      match entryLookup cfg typeKey environment with
      | some w => .ok w
      | none =>
        .error ("Aucun workspace trouvé pour \x27" ++ artifact_name ++ "\x27")
    | none =>
      .error ("Aucun workspace trouvé pour \x27" ++ artifact_name ++ "\x27")

/-- Modelled from the spec wording of claim C6 (for comparison with the
source): resolution "tries in order: (1) the exact artifact entry's
type-specific sub-map at the environment key, (2) the exact artifact entry's
legacy flat form at the environment key, (3) the default entry's
type-specific sub-map, (4) the default entry's legacy flat form; it returns
the first non-empty value found". -/
def resolveSpecC6 (artifact_name item_type environment : String)
    (mapping : List (String × ArtifactConfig)) : Except String String :=
  let typeKey := if item_type = "SemanticModel" then "semanticmodel" else "report"
  let cfgA := lookupCfg mapping artifact_name
  let cfgD := lookupCfg mapping "default"
  let step1 := cfgA.bind fun c =>
    (c.typeMap typeKey).bind fun sub => nonEmpty (assocGet sub environment)
  let step2 := cfgA.bind fun c => nonEmpty (assocGet c.flat environment)
  let step3 := cfgD.bind fun c =>
    (c.typeMap typeKey).bind fun sub => nonEmpty (assocGet sub environment)
  let step4 := cfgD.bind fun c => nonEmpty (assocGet c.flat environment)
  match step1 <|> step2 <|> step3 <|> step4 with
  | some w => .ok w
  | none => .error ("WorkspaceNotMapped: " ++ artifact_name)

/-- The amended resolution order: entry-level first-hit (exact artifact
entry, then `default`), where within each entry the legacy flat form is
consulted only when that entry lacks the type-specific key entirely. -/
def resolveAmendedC6 (artifact_name item_type environment : String)
    (mapping : List (String × ArtifactConfig)) : Except String String :=
  let typeKey := if item_type = "SemanticModel" then "semanticmodel" else "report"
  let hit :=
    ((lookupCfg mapping artifact_name).bind fun c => entryLookup c typeKey environment) <|>
    ((lookupCfg mapping "default").bind fun c => entryLookup c typeKey environment)
  match hit with
  | some w => .ok w
  | none => .error ("Aucun workspace trouvé pour \x27" ++ artifact_name ++ "\x27")

/-! ## Display-name derivations (claim C10) -/

/-- The display name computed at the top of
`create_or_update_item_from_folder`: the base name, truncated at the first
dot when it contains one (`display_name.split(".", 1)[0]`). -/
def displayNameOf (base : String) : String :=
  if '.' ∈ base.toList then ⟨takeUntilDot base.toList⟩ else base

/-- The report name computed by `deploy_report_via_fabric_workaround`:
`os.path.basename(pbip_folder).replace(".Report", "")`. -/
def reportNameOf (base : String) : String :=
  pyReplace base ".Report" ""

/-! ## The Deployment Driver (`deploy.main`)

Authentication is embedded as an `Except` value (an `AuthError` propagates
uncaught).  Each artifact's whole per-iteration work (workspace resolution
plus publication) is embedded as one `Except` outcome; the driver loop
catches any failure, logs it, and continues.  The Python process exits with
the code of the `match`: `main` returning normally exits 0, an uncaught
exception exits 1. -/

/-- The per-artifact loop of `deploy.main`: every artifact is processed, a
failure only contributes a log line. -/
def processArtifacts (steps : List (String × Except String Unit)) : List String :=
  steps.map fun s =>
    match s.2 with
    | .ok _ => "OK " ++ s.1
    | .error e => "❌ Échec pour " ++ s.1 ++ ": " ++ e

/-- `deploy.main`: authentication, then the semantic-model loop, then the
report loop.  Returns the run log and the value the process exit code is
derived from. -/
def mainRun (auth : Except String String)
    (semantic reports : List (String × Except String Unit)) :
    Except String (List String × Nat) :=
  match auth with
  | .error e => .error e
  | .ok _tok => .ok (processArtifacts semantic ++ processArtifacts reports, 0)

/-- The process exit code: 0 when `main` returns, 1 when an exception
escapes it. -/
def mainExitCode (auth : Except String String)
    (semantic reports : List (String × Except String Unit)) : Nat :=
  match mainRun auth semantic reports with
  | .ok (_, c) => c
  | .error _ => 1

/-! ## Module import surface (claim C2) -/

/-- The names `deploy.py` imports from `utils` (lines 8-15). -/
def deployImportedNames : List String :=
  ["get_access_token_spn",
   "create_or_update_item_from_folder",
   "list_items_by_type",
   "deploy_report_via_fabric_workaround",
   "find_dataset_cross_workspace",
   "rebind_report_cross_workspace"]

/-- Every top-level name defined in `utils.py`. -/
def utilsDefinedNames : List String :=
  ["FABRIC_API_BASE",
   "FabricAuthError",
   "FabricApiError",
   "_get_env_or_fail",
   "get_access_token_spn",
   "fabric_request",
   "get_or_create_workspace",
   "list_items_by_type",
   "build_definition_parts_from_folder",
   "wait_for_long_running_operation",
   "create_pbix_from_pbip",
   "upload_pbix_via_powerbi_api",
   "wait_for_import_completion",
   "rebind_report_to_dataset",
   "deploy_report_via_fabric_workaround",
   "create_or_update_item_from_folder"]

/-- Python import semantics for `deploy.py`: the `from utils import ...`
statement runs before anything in `main`, so an unresolvable name raises
`ImportError` no matter whether authentication would succeed. -/
def runDeployModule (authOk : Bool) : Except String Unit :=
  if deployImportedNames.all (fun n => utilsDefinedNames.contains n) then
    if authOk then .ok () else .error "AuthError"
  else
    .error "ImportError"

/-! ## Helper lemmas -/

theorem takeUntilDot_eq_takeWhile :
    ∀ l : List Char, takeUntilDot l = l.takeWhile (fun c => !(c == '.'))
  | [] => rfl
  | c :: rest => by
    by_cases h : c = '.'
    · subst h
      simp [takeUntilDot, List.takeWhile_cons]
    · simp [takeUntilDot, List.takeWhile_cons, h, takeUntilDot_eq_takeWhile rest]

theorem takeWhile_no_dot :
    ∀ l : List Char, '.' ∉ l → l.takeWhile (fun c => !(c == '.')) = l
  | [], _ => rfl
  | c :: rest, h => by
    have hc : ¬ c = '.' := fun hh => h (hh ▸ List.mem_cons_self c rest)
    simp [List.takeWhile_cons, hc,
      takeWhile_no_dot rest (fun hm => h (List.mem_cons_of_mem c hm))]

/-! ## Claims -/

/-- C2: every invocation of `deploy.py` fails at module-import time, before
authentication or any deployment step, because the `from utils import ...`
list contains `find_dataset_cross_workspace` and
`rebind_report_cross_workspace` while `utils.py` defines neither; the only
rebind function `utils.py` defines is `rebind_report_to_dataset`, so the
cross-workspace report pipeline can never execute. -/
theorem claim_C2 :
    deployImportedNames.all (fun n => utilsDefinedNames.contains n) = false ∧
    "find_dataset_cross_workspace" ∈ deployImportedNames ∧
    "rebind_report_cross_workspace" ∈ deployImportedNames ∧
    utilsDefinedNames.contains "find_dataset_cross_workspace" = false ∧
    utilsDefinedNames.contains "rebind_report_cross_workspace" = false ∧
    utilsDefinedNames.filter (fun n => "rebind".toList.isPrefixOf n.toList) =
      ["rebind_report_to_dataset"] ∧
    (∀ authOk : Bool, runDeployModule authOk = Except.error "ImportError") := by
  have hall : deployImportedNames.all (fun n => utilsDefinedNames.contains n) = false := by
    decide
  refine ⟨hall, by decide, by decide, by decide, by decide, by decide, ?_⟩
  intro authOk
  unfold runDeployModule
  rw [hall]
  rfl

/-- C9: a failed rebind request is non-fatal — `rebind_report_to_dataset`
never raises, it only logs a warning, and the surrounding deployment still
returns the already-created report id unchanged. -/
theorem claim_C9 (resp : HttpResp) (item_id : String) :
    (rebind_report_to_dataset resp).1 = Except.ok () ∧
    deployReportFinish item_id resp = Except.ok item_id ∧
    (resp.ok = false →
      ("⚠️ Échec du rebind: HTTP " ++ toString resp.status) ∈
        (rebind_report_to_dataset resp).2) := by
  obtain ⟨ok, status, text⟩ := resp
  cases ok <;> simp [rebind_report_to_dataset, deployReportFinish]

/-- C9 witness: a concrete failed rebind (HTTP 404) leaves the outcome
successful, keeps the report id, and logs the warning. -/
theorem claim_C9_witness :
    (rebind_report_to_dataset ⟨false, 404, "err"⟩).1 = Except.ok () ∧
    deployReportFinish "rid" ⟨false, 404, "err"⟩ = Except.ok "rid" ∧
    ("⚠️ Échec du rebind: HTTP " ++ toString 404) ∈
      (rebind_report_to_dataset ⟨false, 404, "err"⟩).2 := by
  obtain ⟨h1, h2, h3⟩ := claim_C9 ⟨false, 404, "err"⟩ "rid"
  exact ⟨h1, h2, h3 rfl⟩

/-- C3 counterexample: on a 202 creation response without a `Location`
header, `create_or_update_item_from_folder` does not fall back to polling
the list-items endpoint — it raises
`FabricApiError("202 response without Location header")` immediately. -/
theorem claim_C3_counterexample :
    createItemResponseHandling ⟨202, none, none⟩ =
      CreateOutcome.failed "202 response without Location header" := rfl

/-- C3 (amended): on the create path, a 201 response yields the item id read
from the body; a 202 response is tracked via the operation URL from the
`Location` header, and when that header is absent the create fails
immediately with the missing-Location error (there is no fallback polling);
any other status code fails with the unexpected-status error. -/
theorem claim_C3_amended (resp : CreateResp) :
    (∀ i, resp.status = 201 → resp.bodyId = some i →
      createItemResponseHandling resp = CreateOutcome.created i) ∧
    (resp.status = 201 → resp.bodyId = none →
      createItemResponseHandling resp =
        CreateOutcome.failed "Failed to parse 201 response") ∧
    (∀ url, resp.status = 202 → resp.location = some url →
      createItemResponseHandling resp = CreateOutcome.tracked url) ∧
    (resp.status = 202 → resp.location = none →
      createItemResponseHandling resp =
        CreateOutcome.failed "202 response without Location header") ∧
    (resp.status ≠ 201 → resp.status ≠ 202 →
      createItemResponseHandling resp =
        CreateOutcome.failed ("Unexpected status code " ++ toString resp.status)) := by
  obtain ⟨s, b, l⟩ := resp
  refine ⟨?_, ?_, ?_, ?_, ?_⟩ <;> intros <;> simp_all [createItemResponseHandling]

/-- C3 witness: the amended behavior at concrete responses. -/
theorem claim_C3_witness :
    createItemResponseHandling ⟨201, some "id-1", none⟩ = CreateOutcome.created "id-1" ∧
    createItemResponseHandling ⟨202, none, some "https://op"⟩ =
      CreateOutcome.tracked "https://op" ∧
    createItemResponseHandling ⟨400, none, none⟩ =
      CreateOutcome.failed ("Unexpected status code " ++ toString 400) :=
  ⟨(claim_C3_amended ⟨201, some "id-1", none⟩).1 "id-1" rfl rfl,
   (claim_C3_amended ⟨202, none, some "https://op"⟩).2.2.1 "https://op" rfl rfl,
   (claim_C3_amended ⟨400, none, none⟩).2.2.2.2 (by decide) (by decide)⟩

/-- C1 counterexample: a run in which artifact A's publication raises is
caught and logged, artifact B is still published, but the process exits 0,
not non-zero. -/
theorem claim_C1_counterexample :
    mainRun (Except.ok "tok") [("A", Except.error "boom")] [("B", Except.ok ())] =
      Except.ok (["❌ Échec pour A: boom", "OK B"], 0) ∧
    mainExitCode (Except.ok "tok") [("A", Except.error "boom")] [("B", Except.ok ())] = 0 :=
  ⟨rfl, rfl⟩

/-- C1 (amended): per-artifact errors are caught and logged and every
remaining artifact is still processed to completion, but the process exits
zero whether or not artifacts failed; only a configuration/authentication
failure before the loops yields a non-zero exit. -/
theorem claim_C1_amended (tok : String)
    (semantic reports : List (String × Except String Unit)) :
    mainExitCode (Except.ok tok) semantic reports = 0 ∧
    (∀ logs c, mainRun (Except.ok tok) semantic reports = Except.ok (logs, c) →
      logs.length = semantic.length + reports.length ∧ c = 0) ∧
    (∀ name err, (name, Except.error err) ∈ semantic ++ reports →
      ("❌ Échec pour " ++ name ++ ": " ++ err) ∈
        processArtifacts semantic ++ processArtifacts reports) ∧
    (∀ e, mainExitCode (Except.error e) semantic reports = 1) := by
  refine ⟨rfl, ?_, ?_, fun e => rfl⟩
  · intro logs c h
    simp only [mainRun, Except.ok.injEq, Prod.mk.injEq] at h
    obtain ⟨h1, h2⟩ := h
    constructor
    · rw [← h1]
      simp [processArtifacts]
    · omega
  · intro name err hmem
    have h1 : ∀ l : List (String × Except String Unit),
        (name, Except.error err) ∈ l →
        ("❌ Échec pour " ++ name ++ ": " ++ err) ∈ processArtifacts l := by
      intro l hl
      exact List.mem_map_of_mem _ hl
    rcases List.mem_append.mp hmem with h | h
    · exact List.mem_append.mpr (Or.inl (h1 _ h))
    · exact List.mem_append.mpr (Or.inr (h1 _ h))

/-- C1 witness: the amended behavior at a concrete failing run. -/
theorem claim_C1_witness :
    mainExitCode (Except.ok "tok") [("A", Except.error "boom")] [("B", Except.ok ())] = 0 ∧
    "❌ Échec pour A: boom" ∈
      processArtifacts [("A", Except.error "boom")] ++
        processArtifacts [("B", Except.ok ())] ∧
    mainExitCode (Except.error "AuthError")
      [("A", Except.error "boom")] [("B", Except.ok ())] = 1 := by
  obtain ⟨h1, _h2, h3, h4⟩ :=
    claim_C1_amended "tok" [("A", Except.error "boom")] [("B", Except.ok ())]
  refine ⟨h1, ?_, h4 "AuthError"⟩
  exact h3 "A" "boom" (by simp)

/-- C10 counterexample: `A.Report.Report` contains two dots, yet both name
derivations yield `A` (Python `replace` removes every occurrence of
`.Report`, not only a suffix — `My.Reportx` becomes `Myx`), so the two
derivations do not disagree for every base name with more than one dot. -/
theorem claim_C10_counterexample :
    "A.Report.Report".toList.count '.' = 2 ∧
    displayNameOf "A.Report.Report" = "A" ∧
    reportNameOf "A.Report.Report" = "A" ∧
    reportNameOf "My.Reportx" = "Myx" := by
  refine ⟨by decide, by decide, by decide, by decide⟩

/-- C10 (amended): `create_or_update_item_from_folder` derives the published
display name as the substring of the base name before the first dot (so
`Finance.EU.SemanticModel` publishes as `Finance`), while
`deploy_report_via_fabric_workaround` removes every occurrence of the
literal `.Report`; the two derivations disagree for some base names with
more than one dot (such as `Finance.EU.SemanticModel`) but agree on others
(both yield `A` for `A.Report.Report`). -/
theorem claim_C10_amended :
    (∀ base : String,
      displayNameOf base = ⟨base.toList.takeWhile (fun c => !(c == '.'))⟩) ∧
    displayNameOf "Finance.EU.SemanticModel" = "Finance" ∧
    reportNameOf "Finance.EU.SemanticModel" = "Finance.EU.SemanticModel" ∧
    displayNameOf "Finance.EU.SemanticModel" ≠
      reportNameOf "Finance.EU.SemanticModel" ∧
    reportNameOf "Sales.Report" = "Sales" ∧
    displayNameOf "A.Report.Report" = reportNameOf "A.Report.Report" := by
  refine ⟨?_, by decide, by decide, by decide, by decide, by decide⟩
  intro base
  unfold displayNameOf
  by_cases h : '.' ∈ base.toList
  · rw [if_pos h]
    exact congrArg String.mk (takeUntilDot_eq_takeWhile base.toList)
  · rw [if_neg h]
    rw [takeWhile_no_dot base.toList h]
    rfl

theorem waitLRO_elapsed_lt (op : OpStatus) (rest : List OpStatus) (e m i : Nat)
    (he : e < m) :
    wait_for_long_running_operation (op :: rest) e m i =
      (if pyLower op.status = "succeeded" ∨ pyLower op.status = "completed" then
        some (.success op, 1)
      else if pyLower op.status = "failed" ∨ pyLower op.status = "cancelled" then
        some (.opFailed ("Opération " ++ pyLower op.status ++ ": " ++ op.errorInfo), 1)
      else
        match wait_for_long_running_operation rest (e + i) m i with
        | some (r, n) => some (r, n + 1)
        | none => none) := by
  simp only [wait_for_long_running_operation]
  rw [if_pos he]

theorem waitLRO_timeout_eq (polls : List OpStatus) (e m i : Nat) (he : m ≤ e) :
    wait_for_long_running_operation polls e m i = some (.timeout m, 0) := by
  cases polls with
  | nil =>
    simp only [wait_for_long_running_operation]
    rw [if_neg (by omega)]
  | cons op rest =>
    simp only [wait_for_long_running_operation]
    rw [if_neg (by omega)]

/-- C4: for every sequence of polled statuses, the operation tracker returns
success on the first poll whose case-folded status is `succeeded` or
`completed`, fails with the operation-failed error carrying the remote error
payload on the first `failed`/`cancelled` poll, keeps polling on any other
status, and fails with the timeout error once the elapsed time reaches
`max_wait`; the sequence `[Running, Running, Succeeded]` returns success
after exactly 3 polls. -/
theorem claim_C4 (op : OpStatus) (rest : List OpStatus)
    (elapsed maxWait interval : Nat) :
    (elapsed < maxWait →
      (pyLower op.status = "succeeded" ∨ pyLower op.status = "completed") →
      wait_for_long_running_operation (op :: rest) elapsed maxWait interval =
        some (.success op, 1)) ∧
    (elapsed < maxWait →
      (pyLower op.status = "failed" ∨ pyLower op.status = "cancelled") →
      wait_for_long_running_operation (op :: rest) elapsed maxWait interval =
        some (.opFailed
          ("Opération " ++ pyLower op.status ++ ": " ++ op.errorInfo), 1)) ∧
    (elapsed < maxWait →
      pyLower op.status ∉
        (["succeeded", "completed", "failed", "cancelled"] : List String) →
      wait_for_long_running_operation (op :: rest) elapsed maxWait interval =
        (wait_for_long_running_operation rest (elapsed + interval) maxWait
          interval).map (fun r => (r.1, r.2 + 1))) ∧
    (∀ polls : List OpStatus, maxWait ≤ elapsed →
      wait_for_long_running_operation polls elapsed maxWait interval =
        some (.timeout maxWait, 0)) ∧
    wait_for_long_running_operation
      [⟨"Running", 0, ""⟩, ⟨"Running", 50, ""⟩, ⟨"Succeeded", 100, ""⟩] 0 300 5 =
      some (.success ⟨"Succeeded", 100, ""⟩, 3) := by
  refine ⟨?_, ?_, ?_, fun polls he => waitLRO_timeout_eq polls elapsed maxWait interval he,
    by decide⟩
  · intro he hst
    rw [waitLRO_elapsed_lt op rest elapsed maxWait interval he, if_pos hst]
  · intro he hst
    have h1 : ¬(pyLower op.status = "succeeded" ∨ pyLower op.status = "completed") := by
      rcases hst with h | h <;> rw [h] <;> decide
    rw [waitLRO_elapsed_lt op rest elapsed maxWait interval he, if_neg h1, if_pos hst]
  · intro he hst
    simp only [List.mem_cons, List.not_mem_nil, or_false, not_or] at hst
    obtain ⟨hs, hc, hf, hx⟩ := hst
    rw [waitLRO_elapsed_lt op rest elapsed maxWait interval he,
      if_neg (by tauto), if_neg (by tauto)]
    rcases hr : wait_for_long_running_operation rest (elapsed + interval)
        maxWait interval with _ | ⟨r, n⟩ <;> rfl

/-- C4 witness: the terminal-success case at a concrete poll. -/
theorem claim_C4_witness :
    wait_for_long_running_operation [⟨"Succeeded", 100, ""⟩] 0 300 5 =
      some (.success ⟨"Succeeded", 100, ""⟩, 1) :=
  (claim_C4 ⟨"Succeeded", 100, ""⟩ [] 0 300 5).1 (by decide) (Or.inl (by decide))

/-- C7: packaging a folder with at least one file produces one part per
file, whose paths are exactly the files' forward-slash relative paths and
whose payloads are the base64 encodings of the files' bytes tagged
`InlineBase64`; packaging a folder with no files fails with the
empty-artifact error. -/
theorem claim_C7 (folder : String) (files : List (String × List Nat)) :
    (files ≠ [] →
      build_definition_parts_from_folder folder files =
        Except.ok (files.map mkPlainPart) ∧
      (files.map mkPlainPart).length = files.length ∧
      (files.map mkPlainPart).map Part.path = files.map (fun f => pathNorm f.1) ∧
      ∀ f ∈ files, (mkPlainPart f).payload = ⟨base64Encode f.2⟩ ∧
        (mkPlainPart f).payloadType = "InlineBase64") ∧
    (files = [] →
      build_definition_parts_from_folder folder files =
        Except.error ("No files found in PBIP folder: " ++ folder)) := by
  constructor
  · intro h
    have hne : (files.map mkPlainPart).isEmpty = false := by
      cases files with
      | nil => exact absurd rfl h
      | cons a l => rfl
    refine ⟨?_, by simp, ?_, fun f _ => ⟨rfl, rfl⟩⟩
    · simp [build_definition_parts_from_folder, hne]
    · rw [List.map_map]
      rfl
  · intro h
    subst h
    rfl

/-- C7 witness: a concrete two-file folder packages into two parts with
normalized paths and base64 payloads, and the empty folder fails. -/
theorem claim_C7_witness :
    build_definition_parts_from_folder "src/S.SemanticModel"
        [("definition\\model.bim", [1, 2, 3]), (".platform", [])] =
      Except.ok
        ([("definition\\model.bim", [1, 2, 3]), (".platform", ([] : List Nat))].map
          mkPlainPart) ∧
    build_definition_parts_from_folder "src/Empty.SemanticModel" [] =
      Except.error ("No files found in PBIP folder: " ++ "src/Empty.SemanticModel") := by
  constructor
  · exact ((claim_C7 "src/S.SemanticModel"
      [("definition\\model.bim", [1, 2, 3]), (".platform", [])]).1
        (by simp)).1
  · exact (claim_C7 "src/Empty.SemanticModel" []).2 rfl

/-- C5 counterexample: with a `definition.pbir` whose `datasetReference`
holds no `byPath` entry (so no dataset name can be recovered), the report
deployment does not proceed with a placeholder — it fails with
`FabricApiError("Dataset \x27None\x27 not found")` before any part is built
or any item created. -/
theorem claim_C5_counterexample :
    resolveDatasetForReport (some ⟨"1.0", none⟩) [⟨"Sales", "id-1"⟩] =
      Except.error "Dataset \x27None\x27 not found" ∧
    deployReportPipeline (some ⟨"1.0", none⟩) [⟨"Sales", "id-1"⟩]
        [("definition.pbir", pbirEncode ⟨"1.0", none⟩)] =
      Except.error "Dataset \x27None\x27 not found" :=
  ⟨rfl, rfl⟩

/-- C5 (amended): when the dataset name cannot be recovered from the report
definition's `byPath` reference, `deploy_report_via_fabric_workaround` fails
fatally with the dataset-not-found error (the `None` name printed into the
message); no placeholder is substituted and the report item is not
created. -/
theorem claim_C5_amended (pbir : Option Pbir) (items : List FabricItem)
    (files : List (String × List Nat))
    (h : ∀ doc p, pbir = some doc →
      doc.datasetReference = some (DatasetRef.byPath p) → p = "") :
    resolveDatasetForReport pbir items =
      Except.error "Dataset \x27None\x27 not found" ∧
    deployReportPipeline pbir items files =
      Except.error "Dataset \x27None\x27 not found" := by
  have h1 : resolveDatasetForReport pbir items =
      Except.error "Dataset \x27None\x27 not found" := by
    unfold resolveDatasetForReport
    rcases pbir with _ | doc
    · rfl
    · rcases hdr : doc.datasetReference with _ | ref
      · simp [hdr]
      · rcases ref with p | c
        · have hp : p = "" := h doc p rfl hdr
          subst hp
          simp [hdr]
        · simp [hdr]
  refine ⟨h1, ?_⟩
  unfold deployReportPipeline
  rw [h1]

/-- C5 witness: the amended behavior at a concrete missing-reference
input. -/
theorem claim_C5_witness :
    resolveDatasetForReport (none : Option Pbir) [⟨"Sales", "id-1"⟩] =
      Except.error "Dataset \x27None\x27 not found" ∧
    deployReportPipeline none [⟨"Sales", "id-1"⟩] [("a.txt", [1, 2])] =
      Except.error "Dataset \x27None\x27 not found" :=
  claim_C5_amended none [⟨"Sales", "id-1"⟩] [("a.txt", [1, 2])]
    (fun _ _ hdoc _ => nomatch hdoc)

/-- A mapping whose entry `A` has the `semanticmodel` key present but empty
and carries a legacy flat value for `dev`. -/
def c6Mapping : List (String × ArtifactConfig) :=
  [("A", { semanticmodel := some [], report := none, flat := [("dev", "W1")] })]

/-- A mapping holding only a `default` entry. -/
def c6DefaultMapping : List (String × ArtifactConfig) :=
  [("default", { semanticmodel := some [("dev", "WD")], report := none, flat := [] })]

/-- C6 counterexample: for an artifact entry whose type-specific sub-map is
present but lacks the environment while the legacy flat form has it, the
claimed four-step order would return the flat value `W1`, but the code's
`elif` skips the entry's legacy flat form and resolution fails. -/
theorem claim_C6_counterexample :
    resolveSpecC6 "A" "SemanticModel" "dev" c6Mapping = Except.ok "W1" ∧
    get_workspace_for_artifact "A" "SemanticModel" "dev" c6Mapping =
      Except.error "Aucun workspace trouvé pour \x27A\x27" :=
  ⟨rfl, rfl⟩

/-- C6 (amended): resolution tries the exact artifact entry and then the
`default` entry, where within each entry the legacy flat form is consulted
only when that entry lacks the type-specific key entirely (a present but
non-matching type-specific sub-map skips the entry's legacy form); the first
non-empty value wins and a workspace-not-mapped error is raised when neither
entry yields one; an artifact absent from the mapping resolves to the
`default` entry's value for that type and environment. -/
theorem claim_C6_amended (artifact_name item_type environment : String)
    (mapping : List (String × ArtifactConfig)) :
    get_workspace_for_artifact artifact_name item_type environment mapping =
      resolveAmendedC6 artifact_name item_type environment mapping ∧
    (∀ cfg w, lookupCfg mapping artifact_name = none →
      lookupCfg mapping "default" = some cfg →
      entryLookup cfg
        (if item_type = "SemanticModel" then "semanticmodel" else "report")
        environment = some w →
      get_workspace_for_artifact artifact_name item_type environment mapping =
        Except.ok w) := by
  constructor
  · unfold get_workspace_for_artifact resolveAmendedC6
    rcases hA : lookupCfg mapping artifact_name with _ | cfgA <;>
      rcases hD : lookupCfg mapping "default" with _ | cfgD <;>
        simp only [hA, hD, Option.none_bind, Option.some_bind, Option.none_orElse,
          Option.some_orElse]
    · cases hEA : entryLookup cfgA
          (if item_type = "SemanticModel" then "semanticmodel" else "report")
          environment <;>
        simp [hEA]
    · cases hEA : entryLookup cfgA
          (if item_type = "SemanticModel" then "semanticmodel" else "report")
          environment <;>
        cases hED : entryLookup cfgD
            (if item_type = "SemanticModel" then "semanticmodel" else "report")
            environment <;>
          simp [hEA, hED]
  · intro cfg w hA hD hE
    unfold get_workspace_for_artifact
    simp [hA, hD, hE]

/-- C6 witness: an artifact absent from the mapping resolves through the
`default` entry's type-specific sub-map. -/
theorem claim_C6_witness :
    get_workspace_for_artifact "Missing" "SemanticModel" "dev" c6DefaultMapping =
      Except.ok "WD" :=
  (claim_C6_amended "Missing" "SemanticModel" "dev" c6DefaultMapping).2
    ⟨some [("dev", "WD")], none, []⟩ "WD" rfl rfl rfl

/-- What the rewrite guarantees for one file/part pair of the workaround's
parts-building loop. -/
def partSpec (dataset_id : String) (f : String × List Nat) (p : Part) : Prop :=
  p.path = pathNorm f.1 ∧ p.payloadType = "InlineBase64" ∧
  (pathNorm f.1 ≠ "definition.pbir" → p = mkPlainPart f) ∧
  (pathNorm f.1 = "definition.pbir" → ∃ doc, pbirDecode f.2 = some doc ∧
    p.payload = ⟨base64Encode (pbirEncode (rewritePbirDoc dataset_id doc))⟩)

theorem deployReportBuildParts_forall2 (dataset_id : String) :
    ∀ (files : List (String × List Nat)) (parts : List Part),
      deployReportBuildParts dataset_id files = Except.ok parts →
      List.Forall₂ (partSpec dataset_id) files parts := by
  intro files
  induction files with
  | nil =>
    intro parts h
    simp only [deployReportBuildParts] at h
    cases h
    exact List.Forall₂.nil
  | cons f rest ih =>
    intro parts h
    simp only [deployReportBuildParts] at h
    by_cases hp : pathNorm f.1 = "definition.pbir"
    · rw [if_pos hp] at h
      cases hd : pbirDecode f.2 with
      | none =>
        simp [hd] at h
      | some doc =>
        simp only [hd] at h
        cases hr : deployReportBuildParts dataset_id rest with
        | error e => simp [hr] at h
        | ok ps =>
          simp only [hr] at h
          cases h
          refine List.Forall₂.cons ?_ (ih ps hr)
          exact ⟨hp.symm ▸ rfl, rfl, fun hne => absurd hp hne,
            fun _ => ⟨doc, hd, rfl⟩⟩
    · rw [if_neg hp] at h
      cases hr : deployReportBuildParts dataset_id rest with
      | error e => simp [hr] at h
      | ok ps =>
        simp only [hr] at h
        cases h
        refine List.Forall₂.cons ?_ (ih ps hr)
        exact ⟨rfl, rfl, fun _ => rfl, fun he => absurd he hp⟩

theorem partSpec_frame (dataset_id : String) :
    ∀ {files : List (String × List Nat)} {parts : List Part},
      List.Forall₂ (partSpec dataset_id) files parts →
      List.Forall₂
        (fun p p' => p.path = p'.path ∧ (p.path ≠ "definition.pbir" → p = p'))
        parts (files.map mkPlainPart) := by
  intro files parts h
  induction h with
  | nil => exact List.Forall₂.nil
  | cons hfp htail ihtail =>
    refine List.Forall₂.cons ?_ ihtail
    obtain ⟨hpath, htype, hother, hpbir⟩ := hfp
    constructor
    · rw [hpath]; rfl
    · intro hne
      exact hother (by rw [hpath] at hne; exact hne)

/-- C8: when the workaround's parts-building loop succeeds, it yields one
part per file; the `definition.pbir` part is re-serialized from the parsed
document whose `datasetReference` was set to a `byConnection` value with
connection string `semanticModelId=<GUID>`, keeping the `InlineBase64`
encoding tag; and every other part is identical (same path, same payload)
to what plain packaging of the same folder produces. -/
theorem claim_C8 (dataset_id folder : String) (files : List (String × List Nat))
    (parts : List Part)
    (h : deployReportBuildParts dataset_id files = Except.ok parts) :
    parts.length = files.length ∧
    (∀ doc, (rewritePbirDoc dataset_id doc).datasetReference =
      some (DatasetRef.byConnection ("semanticModelId=" ++ dataset_id))) ∧
    List.Forall₂ (partSpec dataset_id) files parts ∧
    (∀ parts', build_definition_parts_from_folder folder files = Except.ok parts' →
      List.Forall₂
        (fun p p' => p.path = p'.path ∧ (p.path ≠ "definition.pbir" → p = p'))
        parts parts') := by
  have hF := deployReportBuildParts_forall2 dataset_id files parts h
  refine ⟨(List.Forall₂.length_eq hF).symm, fun doc => rfl, hF, ?_⟩
  intro parts2 hb
  have hmap : parts2 = files.map mkPlainPart := by
    cases files with
    | nil => simp [build_definition_parts_from_folder] at hb
    | cons a l =>
      simp only [build_definition_parts_from_folder, List.map_cons,
        List.isEmpty_cons, Bool.false_eq_true, if_false] at hb
      cases hb
      rfl
  subst hmap
  exact partSpec_frame dataset_id hF

/-- A concrete report folder: a parseable `definition.pbir` with a legacy
`byPath` reference plus two ordinary files. -/
def c8Files : List (String × List Nat) :=
  [("definition.pbir", pbirEncode ⟨"1.0", some (.byPath "../Sales.SemanticModel")⟩),
   ("StaticResources\\img.png", [137, 80, 78, 71]),
   ("definition\\report.json", [123, 125])]

/-- The parts the rewrite produces on `c8Files` with dataset id `abc-123`. -/
def c8Parts : List Part :=
  match deployReportBuildParts "abc-123" c8Files with
  | .ok ps => ps
  | .error _ => []

/-- C8 witness: the rewrite guarantee at the concrete folder `c8Files`. -/
theorem claim_C8_witness :
    c8Parts.length = c8Files.length ∧
    List.Forall₂ (partSpec "abc-123") c8Files c8Parts :=
  ⟨(claim_C8 "abc-123" "src/R.Report" c8Files c8Parts rfl).1,
   (claim_C8 "abc-123" "src/R.Report" c8Files c8Parts rfl).2.2.1⟩

end CICD
